import Mathlib

/-!
The `lr` record reader binding (`src/lr_mod/lr_module.c`).

A shallow embedding of `lr_get_data`, the function behind `lr.get()`, together with
the two library interfaces it is written against: the reader library's `li_get`
(whose answers are inputs of the model) and CPython's `Py_BuildValue` (whose format
interpreter is modelled for the format units the module uses).
-/

namespace LrModule

/-! ## Values -/

/-- A C `double`, carried as its IEEE-754 binary64 bit pattern. The module never
computes with samples, it only moves them, so the bit pattern is all that matters. -/
structure double where
  bits : Nat
deriving DecidableEq, Repr

/-- The fill value `0.0` handed to `li_array_resize`. -/
def double.zero : double := ⟨0⟩

/-- The Python objects the module can hand back: `None`, a float, a tuple. -/
inductive PyObject where
  | None : PyObject
  | Float (d : double) : PyObject
  | Tuple (items : List PyObject) : PyObject
deriving Repr

mutual
/-- Equality of Python objects is decidable (objects). -/
def PyObject.decEq : (a b : PyObject) → Decidable (a = b)
  | .None, .None => isTrue rfl
  | .None, .Float _ => isFalse (by intro h; cases h)
  | .None, .Tuple _ => isFalse (by intro h; cases h)
  | .Float _, .None => isFalse (by intro h; cases h)
  | .Float x, .Float y =>
    if h : x = y then isTrue (by rw [h]) else isFalse (by intro e; cases e; exact h rfl)
  | .Float _, .Tuple _ => isFalse (by intro h; cases h)
  | .Tuple _, .None => isFalse (by intro h; cases h)
  | .Tuple _, .Float _ => isFalse (by intro h; cases h)
  | .Tuple xs, .Tuple ys =>
    match PyObject.decEqList xs ys with
    | isTrue h => isTrue (by rw [h])
    | isFalse h => isFalse (by intro e; cases e; exact h rfl)
/-- Equality of Python objects is decidable (tuple contents). -/
def PyObject.decEqList : (a b : List PyObject) → Decidable (a = b)
  | [], [] => isTrue rfl
  | [], _ :: _ => isFalse (by intro h; cases h)
  | _ :: _, [] => isFalse (by intro h; cases h)
  | x :: xs, y :: ys =>
    match PyObject.decEq x y, PyObject.decEqList xs ys with
    | isTrue h1, isTrue h2 => isTrue (by rw [h1, h2])
    | isFalse h1, _ => isFalse (by intro e; cases e; exact h1 rfl)
    | _, isFalse h2 => isFalse (by intro e; cases e; exact h2 rfl)
end

instance : DecidableEq PyObject := PyObject.decEq

/-- The exception classes that can be pending when the module returns `NULL`. -/
inductive PyExcType where
  | PyExc_Exception
  | PyExc_SystemError
deriving DecidableEq, Repr

/-- Modelled from the spec: the status type of the reader library (`lireader.h` is not
among the sources). The module compares a status only with `LI_SUCCESS` and with
`LI_SMALL_SRC` (the spec's `INSUFFICIENT_DATA`); every other enumerator is `LI_OTHER`. -/
inductive li_status where
  | LI_SUCCESS
  | LI_SMALL_SRC
  | LI_OTHER (code : Nat)
deriving DecidableEq, Repr

/-- An argument substituted for a `%d` of a `PyErr_Format` message. -/
inductive FmtArg where
  | int (i : Int)
  | status (s : li_status)
deriving DecidableEq, Repr

/-- A pending Python exception: class, message format and the values for its `%d`s,
exactly as passed to `PyErr_Format` / `PyErr_SetString`. -/
structure PyErr where
  exc : PyExcType
  fmt : String
  args : List FmtArg
deriving DecidableEq, Repr

/-- What a `PyObject *`-returning C function yields: an object, or `NULL` with an
exception pending. -/
inductive PyReturn where
  | ok (v : PyObject)
  | raise (e : PyErr)
deriving DecidableEq, Repr

/-- `PyErr_Format(exc, fmt, ...)` followed by `return NULL`. -/
def PyErr_Format (exc : PyExcType) (fmt : String) (args : List FmtArg) : PyErr :=
  { exc := exc, fmt := fmt, args := args }

/-! ## `Py_BuildValue` -/

/-- CPython's `countformat` (Python/modsupport.c, outside the repository): the number
of top-level format units before `endchar`; `none` is the `-1` it returns, with
`SystemError` set, when the string ends first. The end of the list is the terminating
NUL and `endchar = none` stands for `'\0'`; `level` is a C `int` and may go negative. -/
def countformat : List Char → Option Char → Nat → Int → Option Nat
  | [], endchar, count, level =>
    if level ≤ 0 ∧ endchar = none then some count else none
  | c :: rest, endchar, count, level =>
    if level ≤ 0 ∧ endchar = some c then some count
    else if c = '(' ∨ c = '[' ∨ c = '{' then
      countformat rest endchar (if level = 0 then count + 1 else count) (level + 1)
    else if c = ')' ∨ c = ']' ∨ c = '}' then
      countformat rest endchar count (level - 1)
    else if c = '#' ∨ c = '&' ∨ c = ',' ∨ c = ':' ∨ c = ' ' ∨ c = '\t' then
      countformat rest endchar count level
    else
      countformat rest endchar (if level = 0 then count + 1 else count) level

/-- The `SystemError` left pending by `countformat`. -/
def err_unmatched_count : PyErr :=
  PyErr_Format .PyExc_SystemError "unmatched paren in format" []

/-- The `SystemError` left pending by `do_mktuple`. -/
def err_unmatched_tuple : PyErr :=
  PyErr_Format .PyExc_SystemError "Unmatched paren in format" []

/-- The `SystemError` left pending by `do_mkvalue` on a unit it does not know. -/
def err_bad_format : PyErr :=
  PyErr_Format .PyExc_SystemError "bad format char passed to Py_BuildValue" []

/-- The model's own failure: recursion budget used up, or `va_arg` past the last
argument (undefined in C). No call made by the module reaches it. -/
def err_model : PyErr :=
  PyErr_Format .PyExc_SystemError "model: out of fuel or out of arguments" []

/-- The state threaded through the format interpreter: the object built, the rest of
the format, the rest of the argument list. -/
abbrev BuildStep (α : Type) := Except PyErr (α × List Char × List double)

mutual
/-- CPython's `do_mkvalue` (Python/modsupport.c, outside the repository), for the
units `(` and `d`, the only ones the module uses, and the separators it skips; any
other unit (the terminating NUL included) is reported as "bad format char". The first
argument bounds the recursion depth. -/
def do_mkvalue : Nat → List Char → List double → BuildStep PyObject
  | 0, _, _ => .error err_model
  | _ + 1, [], _ => .error err_bad_format
  | fuel + 1, c :: rest, va =>
    if c = '(' then
      match countformat rest (some ')') 0 0 with
      | none => .error err_unmatched_count
      | some n =>
        match do_mktuple fuel rest va n with
        | .error e => .error e
        | .ok (items, f, va1) =>
          match f with
          | ')' :: f1 => .ok (PyObject.Tuple items, f1, va1)
          | _ => .error err_unmatched_tuple
    else if c = 'd' then
      match va with
      | x :: va1 => .ok (PyObject.Float x, rest, va1)
      | [] => .error err_model
    else if c = ':' ∨ c = ',' ∨ c = ' ' ∨ c = '\t' then
      do_mkvalue fuel rest va
    else .error err_bad_format
/-- The item loop of CPython's `do_mktuple`: `n` calls of `do_mkvalue`, left to right.
The check of the closing character is made by the caller. -/
def do_mktuple : Nat → List Char → List double → Nat → BuildStep (List PyObject)
  | 0, _, _, _ => .error err_model
  | _ + 1, f, va, 0 => .ok ([], f, va)
  | fuel + 1, f, va, n + 1 =>
    match do_mkvalue fuel f va with
    | .error e => .error e
    | .ok (w, f1, va1) =>
      match do_mktuple fuel f1 va1 n with
      | .error e => .error e
      | .ok (ws, f2, va2) => .ok (w :: ws, f2, va2)
end

/-- CPython's `Py_BuildValue(format, ...)` (`va_build_value` in Python/modsupport.c,
outside the repository): no unit gives `None`, one unit gives that value, several
give a tuple of them. All arguments the module passes are C doubles. -/
def Py_BuildValue (format : String) (va : List double) : Except PyErr PyObject :=
  let f := format.toList
  let fuel := 2 * f.length + 2
  match countformat f none 0 0 with
  | none => .error err_unmatched_count
  | some 0 => .ok PyObject.None
  | some 1 =>
    match do_mkvalue fuel f va with
    | .error e => .error e
    | .ok (v, _, _) => .ok v
  | some n =>
    match do_mktuple fuel f va n with
    | .error e => .error e
    | .ok (items, f1, _) =>
      match f1 with
      | [] => .ok (PyObject.Tuple items)
      | _ => .error err_unmatched_tuple

/-! ## The reader library -/

/-- Modelled from the spec: the field selectors of the reader library (`lireader.h`
is not among the sources), one for each read `lr_get_data` makes: the payload byte
length, the channel selector, the samples. -/
inductive li_field where
  | LI_RECORD_BYTES_U64
  | LI_CHANNEL_SELECT_U8
  | LI_RECORD_F64V
deriving DecidableEq, Repr

/-- One `li_get` call as the library sees it: the field asked for, the size in bytes
of the destination offered, and the status it answered. -/
structure li_call where
  what : li_field
  size : Nat
  result : li_status
deriving DecidableEq, Repr

/-- Modelled from the spec: the reader behind the global `reader` (`li_get` lives in
the reader library, which is not among the sources). The model holds the answer the
library gives to each of the three reads of one `get()`: the status it returns and
the value found in the destination afterwards. `bytes` is a `uint64_t`, `chs` a
`uint8_t` (left uninitialised by the module, so any value when the read fails), and
`f64v` are the samples stored on success. -/
structure li_reader where
  bytes_status : li_status
  bytes : Nat
  chs_status : li_status
  chs : Nat
  f64v_status : li_status
  f64v : List double
deriving DecidableEq, Repr

/-- Modelled from the spec: `li_array_resize(double)(&a, n, fill)` of the reader
library's growable array (`liutility.h` is not among the sources): keep the first `n`
elements, pad with `fill` up to length `n`. -/
def li_array_resize (a : List double) (n : Nat) (fill : double) : List double :=
  a.take n ++ List.replicate (n - a.length) fill

/-- Modelled from the spec: the memory behind `doubles.begin` after a successful
`LI_RECORD_F64V` read into it (`li_get` is not among the sources): the decoded samples
overwrite the array from its start, never past its end. -/
def li_get_store (dst src : List double) : List double :=
  src.take dst.length ++ dst.drop src.length

/-- The C expression `d[i]`. Every index the module reads is below the array length
(see `lr_count_le_array_size`); the fill value stands in otherwise. -/
def d_at (d : List double) (i : Nat) : double := d.getD i double.zero

/-- Conversion of a `uint64_t`/`size_t` value to `int`: reduction modulo `2^32`,
read as a two's-complement 32-bit number. -/
def int_of_uint64 (q : Nat) : Int :=
  if q % 2 ^ 32 < 2 ^ 31 then ((q % 2 ^ 32 : Nat) : Int)
  else ((q % 2 ^ 32 : Nat) : Int) - 2 ^ 32

/-- Line 48, `count = bytes / sizeof(double);` with `int count`, `uint64_t bytes`. -/
def lr_count (bytes : Nat) : Int := int_of_uint64 (bytes / 8)

/-- Line 50, the length `(size_t) bytes / sizeof(double)` the array is resized to
(`size_t` is 64 bits wide). -/
def lr_array_size (bytes : Nat) : Nat := (bytes % 2 ^ 64) / 8

/-! ## `lr_get_data` -/

/-- The tail of `lr_get_data`: hand back what `Py_BuildValue` built, or `NULL` with
its exception pending. -/
def lr_return (r : Except PyErr PyObject) : PyReturn :=
  match r with
  | .ok v => .ok v
  | .error e => .raise e

/-- The `default:` arm of both switches. -/
def lr_unknown_count (count : Int) (chs : Nat) : PyErr :=
  PyErr_Format .PyExc_Exception "Unknown record count %d for ch %d" [.int count, .int chs]

/-- Lines 70-94 of `lr_get_data`: the two switches over `count`. -/
def lr_shape (chs : Nat) (count : Int) (d : List double) : PyReturn :=
  if chs = 1 ∨ chs = 2 then
    if count = 0 then .ok .None
    else if count = 1 then lr_return (Py_BuildValue "d" [d_at d 0])
    else if count = 2 then lr_return (Py_BuildValue "(dd)" [d_at d 0, d_at d 1])
    else if count = 3 then lr_return (Py_BuildValue "(ddd)" [d_at d 0, d_at d 1, d_at d 2])
    else if count = 4 then
      lr_return (Py_BuildValue "(dddd)" [d_at d 0, d_at d 1, d_at d 2, d_at d 3])
    else if count = 5 then
      lr_return (Py_BuildValue "(ddddd)" [d_at d 0, d_at d 1, d_at d 2, d_at d 3, d_at d 4])
    else if count = 6 then
      lr_return (Py_BuildValue "(dddddd)"
        [d_at d 0, d_at d 1, d_at d 2, d_at d 3, d_at d 4, d_at d 5])
    else if count = 7 then
      lr_return (Py_BuildValue "(ddddddd)"
        [d_at d 0, d_at d 1, d_at d 2, d_at d 3, d_at d 4, d_at d 5, d_at d 6])
    else .raise (lr_unknown_count count chs)
  else
    if count = 0 then .ok .None
    else if count = 2 then lr_return (Py_BuildValue "(dd)" [d_at d 0, d_at d 1])
    else if count = 4 then
      lr_return (Py_BuildValue "((dd)(dd))" [d_at d 0, d_at d 1, d_at d 2, d_at d 3])
    else if count = 6 then
      lr_return (Py_BuildValue "((ddd)(ddd)"
        [d_at d 0, d_at d 1, d_at d 2, d_at d 3, d_at d 4, d_at d 5])
    else if count = 8 then
      lr_return (Py_BuildValue "((dddd)(dddd))"
        [d_at d 0, d_at d 1, d_at d 2, d_at d 3, d_at d 4, d_at d 5, d_at d 6, d_at d 7])
    else if count = 10 then
      lr_return (Py_BuildValue "((ddddd)(ddddd))"
        [d_at d 0, d_at d 1, d_at d 2, d_at d 3, d_at d 4, d_at d 5, d_at d 6, d_at d 7,
         d_at d 8, d_at d 9])
    else if count = 12 then
      lr_return (Py_BuildValue "((dddddd)(dddddd))"
        [d_at d 0, d_at d 1, d_at d 2, d_at d 3, d_at d 4, d_at d 5, d_at d 6, d_at d 7,
         d_at d 8, d_at d 9, d_at d 10, d_at d 11])
    else if count = 14 then
      lr_return (Py_BuildValue "((dddddd)(dddddd))"
        [d_at d 0, d_at d 1, d_at d 2, d_at d 3, d_at d 4, d_at d 5, d_at d 6, d_at d 7,
         d_at d 8, d_at d 9, d_at d 10, d_at d 11, d_at d 12, d_at d 13])
    else .raise (lr_unknown_count count chs)

/-- The function `lr_get_data` behind `lr.get()`, called with no argument (so that
`PyArg_ParseTuple(args, "")` succeeds). It yields what the caller receives and the
`li_get` calls made, in order. -/
def lr_get_data (reader : li_reader) : PyReturn × List li_call :=
  let doubles : List double := []
  let call_bytes : li_call := ⟨.LI_RECORD_BYTES_U64, 8, reader.bytes_status⟩
  if reader.bytes_status ≠ .LI_SUCCESS then
    (.raise (PyErr_Format .PyExc_Exception "LiquidReader doesn't have header, error %d"
      [.status reader.bytes_status]), [call_bytes])
  else if reader.bytes = 0 then (.ok .None, [call_bytes])
  else
    let count := lr_count reader.bytes
    let doubles := li_array_resize doubles (lr_array_size reader.bytes) double.zero
    let call_chs : li_call := ⟨.LI_CHANNEL_SELECT_U8, 1, reader.chs_status⟩
    let call_f64v : li_call := ⟨.LI_RECORD_F64V, doubles.length * 8, reader.f64v_status⟩
    let calls := [call_bytes, call_chs, call_f64v]
    if reader.f64v_status = .LI_SMALL_SRC then (.ok .None, calls)
    else if reader.f64v_status ≠ .LI_SUCCESS then
      (.raise (PyErr_Format .PyExc_Exception "LiquidReader error %d"
        [.status reader.f64v_status]), calls)
    else (lr_shape reader.chs count (li_get_store doubles reader.f64v), calls)

/-- The sample `1.0`. -/
def f64_1_0 : double := ⟨0x3FF0000000000000⟩

/-- The sample `2.0`. -/
def f64_2_0 : double := ⟨0x4000000000000000⟩

/-- The sample `3.0`. -/
def f64_3_0 : double := ⟨0x4008000000000000⟩

/-- The sample `4.0`. -/
def f64_4_0 : double := ⟨0x4010000000000000⟩

/-- The sample `5.5`. -/
def f64_5_5 : double := ⟨0x4016000000000000⟩

/-- A reader whose three reads all succeed. -/
def reader_ok (bytes chs : Nat) (samples : List double) : li_reader :=
  ⟨.LI_SUCCESS, bytes, .LI_SUCCESS, chs, .LI_SUCCESS, samples⟩

/-! ## Vocabulary of the specification -/

/-- The dual-channel record in the spec's words: a pair of tuples, the first half of
the decoded sequence and then the second half, each in order. -/
def spec_dual_record (d : List double) : PyObject :=
  .Tuple [.Tuple ((d.take (d.length / 2)).map .Float),
          .Tuple ((d.drop (d.length / 2)).map .Float)]

/-- The single-channel record for two or more samples in the spec's words: one flat
tuple of all the values in order. -/
def spec_flat_record (d : List double) : PyObject := .Tuple (d.map .Float)

/-- The caller receives an error: `NULL` with an exception pending. -/
def is_error : PyReturn → Bool
  | .raise _ => true
  | .ok _ => false

/-- The caller receives the unrecognized-record-size error of the two `default:` arms. -/
def is_unknown_count : PyReturn → Bool
  | .raise e =>
    decide (e.exc = .PyExc_Exception) && decide (e.fmt = "Unknown record count %d for ch %d")
  | .ok _ => false

/-- The single-channel selectors (channel A is 1, channel B is 2). -/
def is_single (chs : Nat) : Prop := chs = 1 ∨ chs = 2

instance (chs : Nat) : Decidable (is_single chs) := by unfold is_single; infer_instance

/-- A status that is neither success nor insufficient data. -/
def is_failure (s : li_status) : Prop := s ≠ .LI_SUCCESS ∧ s ≠ .LI_SMALL_SRC

instance (s : li_status) : Decidable (is_failure s) := by unfold is_failure; infer_instance

/-! ## Evaluation of the format strings of the module -/

theorem build_d (a : double) : Py_BuildValue "d" [a] = .ok (.Float a) := rfl

theorem build_flat2 (a b : double) :
    Py_BuildValue "(dd)" [a, b] = .ok (.Tuple [.Float a, .Float b]) := rfl

theorem build_flat3 (a b c : double) :
    Py_BuildValue "(ddd)" [a, b, c] = .ok (.Tuple [.Float a, .Float b, .Float c]) := rfl

theorem build_flat4 (a b c e : double) :
    Py_BuildValue "(dddd)" [a, b, c, e]
      = .ok (.Tuple [.Float a, .Float b, .Float c, .Float e]) := rfl

theorem build_flat5 (a b c e f : double) :
    Py_BuildValue "(ddddd)" [a, b, c, e, f]
      = .ok (.Tuple [.Float a, .Float b, .Float c, .Float e, .Float f]) := rfl

theorem build_flat6 (a b c e f g : double) :
    Py_BuildValue "(dddddd)" [a, b, c, e, f, g]
      = .ok (.Tuple [.Float a, .Float b, .Float c, .Float e, .Float f, .Float g]) := rfl

theorem build_flat7 (a b c e f g h : double) :
    Py_BuildValue "(ddddddd)" [a, b, c, e, f, g, h]
      = .ok (.Tuple [.Float a, .Float b, .Float c, .Float e, .Float f, .Float g,
          .Float h]) := rfl

theorem build_pair2 (a b c e : double) :
    Py_BuildValue "((dd)(dd))" [a, b, c, e]
      = .ok (.Tuple [.Tuple [.Float a, .Float b], .Tuple [.Float c, .Float e]]) := rfl

/-- The format of `case 6` of the dual switch lacks its last `)`: `countformat` runs
into the end of the string with a bracket open, whatever the arguments. -/
theorem build_pair3_unmatched (va : List double) :
    Py_BuildValue "((ddd)(ddd)" va = .error err_unmatched_count := rfl

theorem build_pair4 (a b c e f g h i : double) :
    Py_BuildValue "((dddd)(dddd))" [a, b, c, e, f, g, h, i]
      = .ok (.Tuple [.Tuple [.Float a, .Float b, .Float c, .Float e],
          .Tuple [.Float f, .Float g, .Float h, .Float i]]) := rfl

theorem build_pair5 (a b c e f g h i j k : double) :
    Py_BuildValue "((ddddd)(ddddd))" [a, b, c, e, f, g, h, i, j, k]
      = .ok (.Tuple [.Tuple [.Float a, .Float b, .Float c, .Float e, .Float f],
          .Tuple [.Float g, .Float h, .Float i, .Float j, .Float k]]) := rfl

/-- The format of `case 12` and of `case 14`: twelve units; arguments past the
twelfth are not looked at. -/
theorem build_pair6 (a b c e f g h i j k l m : double) (more : List double) :
    Py_BuildValue "((dddddd)(dddddd))"
        (a :: b :: c :: e :: f :: g :: h :: i :: j :: k :: l :: m :: more)
      = .ok (.Tuple [.Tuple [.Float a, .Float b, .Float c, .Float e, .Float f, .Float g],
          .Tuple [.Float h, .Float i, .Float j, .Float k, .Float l, .Float m]]) := rfl

/-! ## Helper lemmas -/

theorem int_of_uint64_small (q : Nat) (h : q < 2 ^ 31) : int_of_uint64 q = (q : Int) := by
  have h1 : q % 2 ^ 32 = q := Nat.mod_eq_of_lt (by omega)
  unfold int_of_uint64
  rw [h1, if_pos h]

theorem lr_count_of_quot (bytes N : Nat) (h : bytes / 8 = N) (hN : N < 2 ^ 31) :
    lr_count bytes = (N : Int) := by
  unfold lr_count
  rw [h]
  exact int_of_uint64_small N hN

theorem lr_array_size_of_quot (bytes N : Nat) (h : bytes / 8 = N) (hb : bytes < 2 ^ 64) :
    lr_array_size bytes = N := by
  unfold lr_array_size
  rw [Nat.mod_eq_of_lt hb, h]

theorem li_array_resize_length (n : Nat) (fill : double) :
    (li_array_resize [] n fill).length = n := by
  simp [li_array_resize]

theorem li_get_store_length (dst src : List double) :
    (li_get_store dst src).length = dst.length := by
  simp [li_get_store]
  omega

theorem li_get_store_full (n : Nat) (src : List double) (h : src.length = n) :
    li_get_store (li_array_resize [] n double.zero) src = src := by
  unfold li_get_store
  rw [li_array_resize_length, ← h, List.take_length]
  simp [li_array_resize]

/-- Whenever `count` is not negative it is at most the length of the array the
switches index, so that every `d[i]` with `i < count` lies inside the array. -/
theorem lr_count_le_array_size (bytes : Nat) (src : List double) (hb : bytes < 2 ^ 64)
    (h0 : 0 ≤ lr_count bytes) :
    lr_count bytes
      ≤ ((li_get_store (li_array_resize [] (lr_array_size bytes) double.zero) src).length
          : Int) := by
  rw [li_get_store_length, li_array_resize_length]
  unfold lr_count int_of_uint64 at *
  unfold lr_array_size
  rw [Nat.mod_eq_of_lt hb]
  split_ifs at h0 ⊢ <;> omega

/-- With the header read and the sample read successful and a non-empty payload,
`lr_get_data` is the shaping of the stored samples, after three reads. -/
theorem lr_get_data_success (cs : li_status) (bytes chs : Nat) (d : List double)
    (hb : bytes ≠ 0) :
    lr_get_data ⟨.LI_SUCCESS, bytes, cs, chs, .LI_SUCCESS, d⟩
      = (lr_shape chs (lr_count bytes)
            (li_get_store (li_array_resize [] (lr_array_size bytes) double.zero) d),
          [⟨.LI_RECORD_BYTES_U64, 8, .LI_SUCCESS⟩, ⟨.LI_CHANNEL_SELECT_U8, 1, cs⟩,
           ⟨.LI_RECORD_F64V, lr_array_size bytes * 8, .LI_SUCCESS⟩]) := by
  simp [lr_get_data, hb, li_array_resize_length]

/-- The same, for a payload of `N` samples that the reader delivers in full. -/
theorem lr_get_data_samples (cs : li_status) (bytes chs N : Nat) (d : List double)
    (hN : bytes / 8 = N) (h1 : 1 ≤ N) (h2 : N < 2 ^ 31) (hlen : d.length = N) :
    (lr_get_data ⟨.LI_SUCCESS, bytes, cs, chs, .LI_SUCCESS, d⟩).1
      = lr_shape chs (N : Int) d := by
  have hb : bytes ≠ 0 := by omega
  have hlt : bytes < 2 ^ 64 := by omega
  rw [lr_get_data_success cs bytes chs d hb, lr_count_of_quot bytes N hN h2,
    lr_array_size_of_quot bytes N hN hlt, li_get_store_full N d hlen]

/-! ## Shaping, branch by branch -/

/-- Single-channel branch, table sizes 1 to 7. -/
theorem lr_shape_single (chs N : Nat) (d : List double) (h : is_single chs)
    (h1 : 1 ≤ N) (h7 : N ≤ 7) (hlen : d.length = N) :
    lr_shape chs (N : Int) d
      = .ok (if N = 1 then .Float (d_at d 0) else spec_flat_record d) := by
  unfold is_single at h
  interval_cases N <;>
    (repeat (rcases d with _ | ⟨x, d⟩ <;> simp at hlen)) <;>
    simp [lr_shape, h, d_at, lr_return, spec_flat_record, build_d, build_flat2, build_flat3,
      build_flat4, build_flat5, build_flat6, build_flat7]

/-- Dual-channel branch, the sizes 4, 8, 10 and 12. -/
theorem lr_shape_dual_pair (chs N : Nat) (d : List double) (h : ¬ is_single chs)
    (hN : N = 4 ∨ N = 8 ∨ N = 10 ∨ N = 12) (hlen : d.length = N) :
    lr_shape chs (N : Int) d = .ok (spec_dual_record d) := by
  unfold is_single at h
  rcases hN with rfl | rfl | rfl | rfl <;>
    (repeat (rcases d with _ | ⟨x, d⟩ <;> simp at hlen)) <;>
    simp [lr_shape, h, d_at, lr_return, spec_dual_record, build_pair2, build_pair4,
      build_pair5, build_pair6]

/-- Dual-channel branch, size 2: one scalar per channel, in a flat pair. -/
theorem lr_shape_dual_two (chs : Nat) (d : List double) (h : ¬ is_single chs)
    (hlen : d.length = 2) :
    lr_shape chs 2 d = .ok (spec_flat_record d) := by
  unfold is_single at h
  repeat (rcases d with _ | ⟨x, d⟩ <;> simp at hlen)
  simp [lr_shape, h, d_at, lr_return, spec_flat_record, build_flat2]

/-- Dual-channel branch, size 6: the unbalanced format makes `Py_BuildValue` fail. -/
theorem lr_shape_dual_six (chs : Nat) (d : List double) (h : ¬ is_single chs) :
    lr_shape chs 6 d = .raise err_unmatched_count := by
  unfold is_single at h
  simp [lr_shape, h, lr_return, build_pair3_unmatched]

/-- Dual-channel branch, size 14: the twelve-unit format drops the last two samples
and splits the first twelve six and six. -/
theorem lr_shape_dual_fourteen (chs : Nat) (d : List double) (h : ¬ is_single chs) :
    lr_shape chs 14 d
      = .ok (.Tuple [.Tuple (((List.range 6).map (d_at d)).map .Float),
          .Tuple (((List.range' 6 6).map (d_at d)).map .Float)]) := by
  unfold is_single at h
  simp [lr_shape, h, lr_return, build_pair6, List.range, List.range.loop, List.range']

/-- Every failure of the format interpreter is a `SystemError`. -/
theorem do_mk_error_exc (fuel : Nat) :
    (∀ f va e, do_mkvalue fuel f va = .error e → e.exc = .PyExc_SystemError) ∧
    (∀ f va n e, do_mktuple fuel f va n = .error e → e.exc = .PyExc_SystemError) := by
  induction fuel with
  | zero =>
    constructor
    · intro f va e h
      simp only [do_mkvalue] at h
      cases h
      rfl
    · intro f va n e h
      simp only [do_mktuple] at h
      cases h
      rfl
  | succ k ih =>
    obtain ⟨ihv, iht⟩ := ih
    constructor
    · intro f va e h
      cases f with
      | nil =>
        simp only [do_mkvalue] at h
        cases h
        rfl
      | cons c rest =>
        simp only [do_mkvalue] at h
        split_ifs at h
        · split at h
          · cases h; rfl
          · split at h
            · rename_i e1 he1
              cases h
              exact iht _ _ _ _ he1
            · split at h
              · cases h
              · cases h; rfl
        · split at h
          · cases h
          · cases h; rfl
        · exact ihv _ _ _ h
        · cases h; rfl
    · intro f va n e h
      cases n with
      | zero =>
        simp only [do_mktuple] at h
        cases h
      | succ m =>
        simp only [do_mktuple] at h
        split at h
        · rename_i e1 he1
          cases h
          exact ihv _ _ _ he1
        · split at h
          · rename_i e1 he1
            cases h
            exact iht _ _ _ _ he1
          · cases h

/-- Every failure of `Py_BuildValue` is a `SystemError`. -/
theorem Py_BuildValue_error_exc (format : String) (va : List double) (e : PyErr)
    (h : Py_BuildValue format va = .error e) : e.exc = .PyExc_SystemError := by
  unfold Py_BuildValue at h
  simp only at h
  split at h
  · cases h; rfl
  · cases h
  · split at h
    · rename_i e1 he1
      cases h
      exact (do_mk_error_exc _).1 _ _ _ he1
    · cases h
  · split at h
    · rename_i e1 he1
      cases h
      exact (do_mk_error_exc _).2 _ _ _ _ he1
    · split at h
      · cases h
      · cases h; rfl

/-- What `Py_BuildValue` hands back is never the unrecognized-record-size error. -/
theorem is_unknown_count_build (format : String) (va : List double) :
    is_unknown_count (lr_return (Py_BuildValue format va)) = false := by
  cases h : Py_BuildValue format va with
  | ok v => rfl
  | error e =>
    have he := Py_BuildValue_error_exc format va e h
    simp [lr_return, is_unknown_count, he]

theorem is_unknown_count_ok (v : PyObject) : is_unknown_count (.ok v) = false := rfl

theorem is_unknown_count_default (count : Int) (chs : Nat) :
    is_unknown_count (.raise (lr_unknown_count count chs)) = true := by
  simp [is_unknown_count, lr_unknown_count, PyErr_Format]

/-- The unrecognized-record-size error, in terms of the selector and the count. -/
theorem lr_shape_unknown_iff (chs N : Nat) (d : List double) (h1 : 1 ≤ N) :
    is_unknown_count (lr_shape chs (N : Int) d) = true
      ↔ (is_single chs ∧ 7 < N) ∨ (¬ is_single chs ∧ (N % 2 = 1 ∨ 14 < N)) := by
  unfold is_single
  by_cases hN : N ≤ 14
  · interval_cases N <;> by_cases h : chs = 1 ∨ chs = 2 <;>
      simp [lr_shape, h, is_unknown_count_ok, is_unknown_count_default, is_unknown_count_build]
  · have e0 : (N : Int) ≠ 0 := by omega
    have e1 : (N : Int) ≠ 1 := by omega
    have e2 : (N : Int) ≠ 2 := by omega
    have e3 : (N : Int) ≠ 3 := by omega
    have e4 : (N : Int) ≠ 4 := by omega
    have e5 : (N : Int) ≠ 5 := by omega
    have e6 : (N : Int) ≠ 6 := by omega
    have e7 : (N : Int) ≠ 7 := by omega
    have e8 : (N : Int) ≠ 8 := by omega
    have e10 : (N : Int) ≠ 10 := by omega
    have e12 : (N : Int) ≠ 12 := by omega
    have e14 : (N : Int) ≠ 14 := by omega
    have h7 : 7 < N := by omega
    have h14 : 14 < N := by omega
    by_cases h : chs = 1 ∨ chs = 2 <;>
      simp [lr_shape, h, e0, e1, e2, e3, e4, e5, e6, e7, e8, e10, e12, e14, h7, h14,
        is_unknown_count_default]

/-- In the dual branch the selector only reaches the error message: two selectors
outside {1, 2} return the same objects. -/
theorem lr_shape_dual_ok_iff (s s1 : Nat) (count : Int) (d : List double)
    (hs : ¬ is_single s) (hs1 : ¬ is_single s1) (v : PyObject) :
    lr_shape s count d = .ok v ↔ lr_shape s1 count d = .ok v := by
  unfold is_single at hs hs1
  unfold lr_shape
  rw [if_neg hs, if_neg hs1]
  by_cases c0 : count = 0
  · rw [if_pos c0, if_pos c0]
  rw [if_neg c0, if_neg c0]
  by_cases c2 : count = 2
  · rw [if_pos c2, if_pos c2]
  rw [if_neg c2, if_neg c2]
  by_cases c4 : count = 4
  · rw [if_pos c4, if_pos c4]
  rw [if_neg c4, if_neg c4]
  by_cases c6 : count = 6
  · rw [if_pos c6, if_pos c6]
  rw [if_neg c6, if_neg c6]
  by_cases c8 : count = 8
  · rw [if_pos c8, if_pos c8]
  rw [if_neg c8, if_neg c8]
  by_cases c10 : count = 10
  · rw [if_pos c10, if_pos c10]
  rw [if_neg c10, if_neg c10]
  by_cases c12 : count = 12
  · rw [if_pos c12, if_pos c12]
  rw [if_neg c12, if_neg c12]
  by_cases c14 : count = 14
  · rw [if_pos c14, if_pos c14]
  rw [if_neg c14, if_neg c14]
  constructor <;> intro h <;> cases h

/-- The result of `lr_get_data` as a cascade of its four early exits. -/
theorem lr_get_data_result (hs cs fs : li_status) (bytes chs : Nat) (d : List double) :
    (lr_get_data ⟨hs, bytes, cs, chs, fs, d⟩).1 =
      if hs ≠ .LI_SUCCESS then
        .raise (PyErr_Format .PyExc_Exception "LiquidReader doesn't have header, error %d"
          [.status hs])
      else if bytes = 0 then .ok .None
      else if fs = .LI_SMALL_SRC then .ok .None
      else if fs ≠ .LI_SUCCESS then
        .raise (PyErr_Format .PyExc_Exception "LiquidReader error %d" [.status fs])
      else lr_shape chs (lr_count bytes)
        (li_get_store (li_array_resize [] (lr_array_size bytes) double.zero) d) := by
  unfold lr_get_data
  by_cases h1 : hs = .LI_SUCCESS
  · by_cases h2 : bytes = 0
    · simp [h1, h2]
    · by_cases h3 : fs = .LI_SMALL_SRC
      · simp [h1, h2, h3]
      · by_cases h4 : fs = .LI_SUCCESS
        · simp [h1, h2, h4]
        · simp [h1, h2, h3, h4]
  · simp [h1]

/-- The reads `lr_get_data` performs: the payload length alone when that read fails
or gives zero, all three otherwise. -/
theorem lr_get_data_calls (hs cs fs : li_status) (bytes chs : Nat) (d : List double) :
    (lr_get_data ⟨hs, bytes, cs, chs, fs, d⟩).2 =
      if hs ≠ .LI_SUCCESS ∨ bytes = 0 then [⟨.LI_RECORD_BYTES_U64, 8, hs⟩]
      else [⟨.LI_RECORD_BYTES_U64, 8, hs⟩, ⟨.LI_CHANNEL_SELECT_U8, 1, cs⟩,
        ⟨.LI_RECORD_F64V, lr_array_size bytes * 8, fs⟩] := by
  unfold lr_get_data
  by_cases h1 : hs = .LI_SUCCESS
  · by_cases h2 : bytes = 0
    · simp [h1, h2]
    · by_cases h3 : fs = .LI_SMALL_SRC
      · simp [h1, h2, h3, li_array_resize_length]
      · by_cases h4 : fs = .LI_SUCCESS
        · simp [h1, h2, h4, li_array_resize_length]
        · simp [h1, h2, h3, h4, li_array_resize_length]
  · simp [h1]

/-! ## C1: dual-channel shaping -/

/-- C1, as stated, fails at N = 2: with a dual selector (3) and the samples
`[1.0, 2.0]`, `get()` returns the flat pair `(1.0, 2.0)`, which is not the pair of
one-element tuples `((1.0,), (2.0,))` the claim describes. -/
theorem lr_get_data_dual_two_not_pair_of_tuples :
    (lr_get_data (reader_ok 16 3 [f64_1_0, f64_2_0])).1
        = .ok (.Tuple [.Float f64_1_0, .Float f64_2_0]) ∧
    (lr_get_data (reader_ok 16 3 [f64_1_0, f64_2_0])).1
        ≠ .ok (spec_dual_record [f64_1_0, f64_2_0]) := by
  decide

/-- C1 (amended): with the header and sample reads successful and a selector other
than 1 and 2, for every sample count N in {4, 8, 10, 12} and every decoded sequence
`d` of length N, `get()` returns the pair of the two halves of `d`, each a tuple of
length N/2 in order; for N = 2 it returns the flat pair `(d[0], d[1])`. -/
theorem lr_get_data_dual_shape (cs : li_status) (bytes chs N : Nat) (d : List double)
    (hsel : ¬ is_single chs) (hN : bytes / 8 = N) (hlen : d.length = N) :
    (N = 4 ∨ N = 8 ∨ N = 10 ∨ N = 12 →
      (lr_get_data ⟨.LI_SUCCESS, bytes, cs, chs, .LI_SUCCESS, d⟩).1
        = .ok (spec_dual_record d)) ∧
    (N = 2 →
      (lr_get_data ⟨.LI_SUCCESS, bytes, cs, chs, .LI_SUCCESS, d⟩).1
        = .ok (spec_flat_record d)) := by
  constructor
  · intro h
    rw [lr_get_data_samples cs bytes chs N d hN (by omega) (by omega) hlen]
    exact lr_shape_dual_pair chs N d hsel h hlen
  · intro h
    subst h
    rw [lr_get_data_samples cs bytes chs 2 d hN (by omega) (by omega) hlen]
    exact lr_shape_dual_two chs d hsel hlen

/-- The spec's round trip: four dual-channel samples `[1.0, 2.0, 3.0, 4.0]` come back
as `((1.0, 2.0), (3.0, 4.0))`. -/
theorem lr_get_data_dual_shape_witness :
    (lr_get_data (reader_ok 32 3 [f64_1_0, f64_2_0, f64_3_0, f64_4_0])).1
      = .ok (.Tuple [.Tuple [.Float f64_1_0, .Float f64_2_0],
          .Tuple [.Float f64_3_0, .Float f64_4_0]]) :=
  (lr_get_data_dual_shape .LI_SUCCESS 32 3 4 [f64_1_0, f64_2_0, f64_3_0, f64_4_0]
    (by decide) (by decide) (by decide)).1 (by decide)

/-- Dual selector, six samples: `get()` raises the `SystemError` of the unbalanced
format string instead of returning a record. -/
theorem lr_get_data_dual_six (cs : li_status) (bytes chs : Nat) (d : List double)
    (hsel : ¬ is_single chs) (hN : bytes / 8 = 6) (hlen : d.length = 6) :
    (lr_get_data ⟨.LI_SUCCESS, bytes, cs, chs, .LI_SUCCESS, d⟩).1
      = .raise err_unmatched_count := by
  rw [lr_get_data_samples cs bytes chs 6 d hN (by omega) (by omega) hlen]
  exact lr_shape_dual_six chs d hsel

/-- Dual selector, fourteen samples: `get()` returns two tuples of six, made of the
first twelve samples; the last two are dropped. -/
theorem lr_get_data_dual_fourteen (cs : li_status) (bytes chs : Nat) (d : List double)
    (hsel : ¬ is_single chs) (hN : bytes / 8 = 14) (hlen : d.length = 14) :
    (lr_get_data ⟨.LI_SUCCESS, bytes, cs, chs, .LI_SUCCESS, d⟩).1
      = .ok (.Tuple [.Tuple (((List.range 6).map (d_at d)).map .Float),
          .Tuple (((List.range' 6 6).map (d_at d)).map .Float)]) := by
  rw [lr_get_data_samples cs bytes chs 14 d hN (by omega) (by omega) hlen]
  exact lr_shape_dual_fourteen chs d hsel

/-! ## C2: single-channel shaping -/

/-- C2: with the header and sample reads successful and selector 1 or 2, one sample
yields the scalar `d[0]`, every N with 2 ≤ N ≤ 7 yields the flat tuple of the N
values of `d` in order, and selectors 1 and 2 give the same result. -/
theorem lr_get_data_single_shape (cs : li_status) (bytes chs N : Nat) (d : List double)
    (hsel : is_single chs) (hN : bytes / 8 = N) (hlen : d.length = N) :
    (N = 1 →
      (lr_get_data ⟨.LI_SUCCESS, bytes, cs, chs, .LI_SUCCESS, d⟩).1
        = .ok (.Float (d_at d 0))) ∧
    (2 ≤ N → N ≤ 7 →
      (lr_get_data ⟨.LI_SUCCESS, bytes, cs, chs, .LI_SUCCESS, d⟩).1
        = .ok (spec_flat_record d)) ∧
    (1 ≤ N → N ≤ 7 →
      (lr_get_data ⟨.LI_SUCCESS, bytes, cs, 1, .LI_SUCCESS, d⟩).1
        = (lr_get_data ⟨.LI_SUCCESS, bytes, cs, 2, .LI_SUCCESS, d⟩).1) := by
  refine ⟨?_, ?_, ?_⟩
  · intro h
    rw [lr_get_data_samples cs bytes chs N d hN (by omega) (by omega) hlen,
      lr_shape_single chs N d hsel (by omega) (by omega) hlen, if_pos h]
  · intro h2 h7
    rw [lr_get_data_samples cs bytes chs N d hN (by omega) (by omega) hlen,
      lr_shape_single chs N d hsel (by omega) h7 hlen, if_neg (by omega)]
  · intro h1 h7
    rw [lr_get_data_samples cs bytes 1 N d hN h1 (by omega) hlen,
      lr_get_data_samples cs bytes 2 N d hN h1 (by omega) hlen,
      lr_shape_single 1 N d (Or.inl rfl) h1 h7 hlen,
      lr_shape_single 2 N d (Or.inr rfl) h1 h7 hlen]

/-- The spec's single-channel scalar: `payload_bytes = 8` and the one sample `5.5`
decode to the scalar `5.5`. -/
theorem lr_get_data_single_shape_witness :
    (lr_get_data (reader_ok 8 1 [f64_5_5])).1 = .ok (.Float f64_5_5) :=
  (lr_get_data_single_shape .LI_SUCCESS 8 1 1 [f64_5_5]
    (by decide) (by decide) (by decide)).1 (by decide)

/-! ## C3: payload length that is not a multiple of 8 -/

/-- C3, as stated, fails at `payload_bytes = 10`: with selector 1 and the sample `5.5`
buffered, `get()` reports no error and returns the scalar `5.5`. -/
theorem lr_get_data_ten_bytes_returns_record :
    (lr_get_data (reader_ok 10 1 [f64_5_5])).1 = .ok (.Float f64_5_5) ∧
    is_error (lr_get_data (reader_ok 10 1 [f64_5_5])).1 = false := by
  decide

/-- C3 (amended): `lr_get_data` checks no remainder. For every `payload_bytes` that is
not a multiple of 8, whatever the statuses, the selector and the samples: from 8 up
it does exactly (result and reads) what it does for `payload_bytes` rounded down to
a multiple of 8, and below 8 it returns `None` once the header and sample reads
succeed. -/
theorem lr_get_data_rounds_payload_down (hs cs fs : li_status) (bytes chs : Nat)
    (d : List double) (hrem : bytes % 8 ≠ 0) (hb : bytes < 2 ^ 64) :
    (8 ≤ bytes →
      lr_get_data ⟨hs, bytes, cs, chs, fs, d⟩
        = lr_get_data ⟨hs, 8 * (bytes / 8), cs, chs, fs, d⟩) ∧
    (bytes < 8 → hs = .LI_SUCCESS → fs = .LI_SUCCESS →
      (lr_get_data ⟨hs, bytes, cs, chs, fs, d⟩).1 = .ok .None) := by
  constructor
  · intro h8
    have hq : 8 * (bytes / 8) / 8 = bytes / 8 := by omega
    have hc : lr_count (8 * (bytes / 8)) = lr_count bytes := by
      unfold lr_count
      rw [hq]
    have ha : lr_array_size (8 * (bytes / 8)) = lr_array_size bytes := by
      unfold lr_array_size
      omega
    have hz1 : bytes ≠ 0 := by omega
    have hz2 : 8 * (bytes / 8) ≠ 0 := by omega
    apply Prod.ext
    · rw [lr_get_data_result, lr_get_data_result, hc, ha, if_neg hz1, if_neg hz2]
    · rw [lr_get_data_calls, lr_get_data_calls, ha]
      simp only [hz1, hz2, or_false]
  · intro h8 h1 h2
    have hq : bytes / 8 = 0 := by omega
    have hc : lr_count bytes = 0 := by
      unfold lr_count
      rw [hq]
      rfl
    rw [lr_get_data_result, hc]
    subst h1 h2
    have hne : bytes ≠ 0 := by omega
    by_cases hsel : chs = 1 ∨ chs = 2 <;> simp [lr_shape, hsel, hne]

/-- With `payload_bytes = 10` the call is the call with `payload_bytes = 8`. -/
theorem lr_get_data_rounds_payload_down_witness :
    lr_get_data (reader_ok 10 1 [f64_5_5]) = lr_get_data (reader_ok 8 1 [f64_5_5]) :=
  (lr_get_data_rounds_payload_down .LI_SUCCESS .LI_SUCCESS .LI_SUCCESS 10 1 [f64_5_5]
    (by decide) (by decide)).1 (by decide)

/-! ## C4: header not yet available -/

/-- C4, as stated, fails: when the payload-length read answers `LI_SMALL_SRC`, `get()`
does not return `None`; it returns `NULL` with an exception pending. -/
theorem lr_get_data_header_small_src_is_error :
    (lr_get_data ⟨.LI_SMALL_SRC, 0, .LI_SMALL_SRC, 0, .LI_SMALL_SRC, []⟩).1 ≠ .ok .None ∧
    is_error (lr_get_data ⟨.LI_SMALL_SRC, 0, .LI_SMALL_SRC, 0, .LI_SMALL_SRC, []⟩).1
      = true := by
  decide

/-- C4 (amended): whenever the payload-length read reports insufficient data, `get()`
raises `Exception("LiquidReader doesn't have header, error %d")` carrying that status,
returns no object, and performs no further read. -/
theorem lr_get_data_header_insufficient (cs fs : li_status) (bytes chs : Nat)
    (d : List double) :
    lr_get_data ⟨.LI_SMALL_SRC, bytes, cs, chs, fs, d⟩
      = (.raise (PyErr_Format .PyExc_Exception "LiquidReader doesn't have header, error %d"
            [.status .LI_SMALL_SRC]),
          [⟨.LI_RECORD_BYTES_U64, 8, .LI_SMALL_SRC⟩]) := by
  simp [lr_get_data]

/-! ## C5: payload not yet available -/

/-- C5: for every non-zero `payload_bytes` and every selector, if the header read
succeeds and the sample read answers `LI_SMALL_SRC`, `get()` returns `None`: no error,
no record, whatever the sample count. -/
theorem lr_get_data_payload_insufficient (cs : li_status) (bytes chs : Nat)
    (d : List double) (hb : bytes ≠ 0) :
    (lr_get_data ⟨.LI_SUCCESS, bytes, cs, chs, .LI_SMALL_SRC, d⟩).1 = .ok .None := by
  simp [lr_get_data, hb]

/-- A payload of 100 samples, far outside the size table, still waiting for bytes. -/
theorem lr_get_data_payload_insufficient_witness :
    (lr_get_data ⟨.LI_SUCCESS, 800, .LI_SUCCESS, 3, .LI_SMALL_SRC, []⟩).1 = .ok .None :=
  lr_get_data_payload_insufficient .LI_SUCCESS 800 3 [] (by decide)

/-! ## C6: zero-length payload -/

/-- C6: for every selector and every buffered content, if the header read succeeds
with `payload_bytes = 0`, `get()` returns `None` and the payload-length read is the
only read made. -/
theorem lr_get_data_zero_payload (cs fs : li_status) (chs : Nat) (d : List double) :
    lr_get_data ⟨.LI_SUCCESS, 0, cs, chs, fs, d⟩
      = (.ok .None, [⟨.LI_RECORD_BYTES_U64, 8, .LI_SUCCESS⟩]) := by
  simp [lr_get_data]

/-! ## C7: the bounded size table -/

/-- C7: for every sample count N = payload_bytes / 8 with 1 ≤ N < 2^31, when the
header and sample reads succeed, `get()` raises the "Unknown record count" error if
and only if the selector is 1 or 2 and N > 7, or the selector is any other value and
N is odd or N > 14. -/
theorem lr_get_data_unknown_count_iff (cs : li_status) (bytes chs N : Nat)
    (d : List double) (hN : bytes / 8 = N) (h1 : 1 ≤ N) (h2 : N < 2 ^ 31) :
    is_unknown_count (lr_get_data ⟨.LI_SUCCESS, bytes, cs, chs, .LI_SUCCESS, d⟩).1 = true
      ↔ (is_single chs ∧ 7 < N) ∨ (¬ is_single chs ∧ (N % 2 = 1 ∨ 14 < N)) := by
  have hb : bytes ≠ 0 := by omega
  rw [lr_get_data_success cs bytes chs d hb, lr_count_of_quot bytes N hN h2]
  exact lr_shape_unknown_iff chs N _ h1

/-- The dual selector with one sample is an error. -/
theorem lr_get_data_unknown_count_iff_witness :
    is_unknown_count (lr_get_data (reader_ok 8 3 [f64_5_5])).1 = true :=
  (lr_get_data_unknown_count_iff .LI_SUCCESS 8 3 1 [f64_5_5]
    (by decide) (by decide) (by decide)).2 (Or.inr ⟨by decide, Or.inl (by decide)⟩)

/-! ## C8: statuses of the reads -/

/-- C9, as stated, fails at `payload_bytes = 2^35`: the array is resized to `2^32`
samples while the `int` count is 0. -/
theorem lr_count_wraps_at_2_pow_35 :
    2 ^ 35 < 2 ^ 64 ∧ lr_array_size (2 ^ 35) = 2 ^ 32 ∧ lr_count (2 ^ 35) = 0 ∧
    lr_count (2 ^ 35) ≠ ((2 ^ 35 / 8 : Nat) : Int) := by
  decide

/-- C9 (amended): for every unsigned 64-bit `payload_bytes` the array is resized to
`payload_bytes / 8` samples, and the `int` count is that quotient reduced modulo
`2^32` into the range of a 32-bit `int`; the count equals `payload_bytes / 8` exactly
when `payload_bytes < 2^34`. -/
theorem lr_count_exact_iff (bytes : Nat) (hb : bytes < 2 ^ 64) :
    lr_array_size bytes = bytes / 8 ∧
    (lr_count bytes - ((bytes / 8 : Nat) : Int)) % 2 ^ 32 = 0 ∧
    -(2 ^ 31) ≤ lr_count bytes ∧ lr_count bytes < 2 ^ 31 ∧
    (lr_count bytes = ((bytes / 8 : Nat) : Int) ↔ bytes < 2 ^ 34) := by
  unfold lr_count int_of_uint64 lr_array_size
  rw [Nat.mod_eq_of_lt hb]
  refine ⟨rfl, ?_, ?_, ?_, ?_⟩ <;> split_ifs <;> omega

/-- The spec's four-sample payload: 32 bytes give the count 4 and an array of 4. -/
theorem lr_count_exact_iff_witness :
    lr_array_size 32 = 4 ∧ lr_count 32 = 4 :=
  have h := lr_count_exact_iff 32 (by decide)
  ⟨h.1, h.2.2.2.2.2 (by decide)⟩

/-! ## C10: selectors outside {1, 2} -/

/-- C10: no selector value is rejected as invalid; for every answer of the reads and
every two selector values outside {1, 2}, `get()` returns an object for the one
exactly when it returns that same object for the other (and so raises for the one
exactly when it raises for the other). -/
theorem lr_get_data_selector_dual_alike (hs cs fs : li_status) (bytes s s1 : Nat)
    (d : List double) (h : ¬ is_single s) (h1 : ¬ is_single s1) :
    (∀ v : PyObject,
      (lr_get_data ⟨hs, bytes, cs, s, fs, d⟩).1 = .ok v
        ↔ (lr_get_data ⟨hs, bytes, cs, s1, fs, d⟩).1 = .ok v) ∧
    is_error (lr_get_data ⟨hs, bytes, cs, s, fs, d⟩).1
      = is_error (lr_get_data ⟨hs, bytes, cs, s1, fs, d⟩).1 := by
  have key : ∀ v : PyObject,
      (lr_get_data ⟨hs, bytes, cs, s, fs, d⟩).1 = .ok v
        ↔ (lr_get_data ⟨hs, bytes, cs, s1, fs, d⟩).1 = .ok v := by
    intro v
    rw [lr_get_data_result, lr_get_data_result]
    by_cases c1 : hs ≠ .LI_SUCCESS
    · rw [if_pos c1, if_pos c1]
    rw [if_neg c1, if_neg c1]
    by_cases c2 : bytes = 0
    · rw [if_pos c2, if_pos c2]
    rw [if_neg c2, if_neg c2]
    by_cases c3 : fs = .LI_SMALL_SRC
    · rw [if_pos c3, if_pos c3]
    rw [if_neg c3, if_neg c3]
    by_cases c4 : fs ≠ .LI_SUCCESS
    · rw [if_pos c4, if_pos c4]
    rw [if_neg c4, if_neg c4]
    exact lr_shape_dual_ok_iff s s1 _ _ h h1 v
  refine ⟨key, ?_⟩
  cases hA : (lr_get_data ⟨hs, bytes, cs, s, fs, d⟩).1 with
  | ok v =>
    rw [(key v).mp hA]
  | raise e =>
    cases hB : (lr_get_data ⟨hs, bytes, cs, s1, fs, d⟩).1 with
    | ok v =>
      rw [(key v).mpr hB] at hA
      cases hA
    | raise e1 => rfl

/-- Selectors 0 and 3 on the spec's four samples: the same pair of tuples. -/
theorem lr_get_data_selector_dual_alike_witness :
    (lr_get_data (reader_ok 32 0 [f64_1_0, f64_2_0, f64_3_0, f64_4_0])).1
      = .ok (.Tuple [.Tuple [.Float f64_1_0, .Float f64_2_0],
          .Tuple [.Float f64_3_0, .Float f64_4_0]]) :=
  ((lr_get_data_selector_dual_alike .LI_SUCCESS .LI_SUCCESS .LI_SUCCESS 32 3 0
    [f64_1_0, f64_2_0, f64_3_0, f64_4_0] (by decide) (by decide)).1 _).mp (by decide)

end LrModule
